import Mathlib

/-!
Shallow embedding of the invoice financial computation and numbering
subsystem of the client-invoice-easy repository, together with proofs of
the specification claims about it.

Monetary quantities and rates are embedded as rationals (the source uses
JavaScript numbers; the algebraic identities claimed by the spec are about
the exact arithmetic the expressions denote).
-/

namespace Invoice

/-- A line item of the invoice form (`InvoiceItem` in CreateInvoice.tsx). -/
structure InvoiceItem where
  id : String
  description : String
  hsnSacCode : String
  quantity : ℚ
  rate : ℚ
  amount : ℚ
deriving DecidableEq, Repr

/-- The record returned by `calculateTotals` in CreateInvoice.tsx /
EditInvoice.tsx. -/
structure InvoiceTotals where
  subtotal : ℚ
  igstAmount : ℚ
  sgstAmount : ℚ
  cgstAmount : ℚ
  totalTax : ℚ
  total : ℚ
deriving DecidableEq, Repr

/-- The function `calculateTotals` from CreateInvoice.tsx (lines 107-118);
the identical function appears in EditInvoice.tsx (lines 152-163).  The
three rates are the form's watched `igstRate`, `sgstRate`, `cgstRate`
values. -/
def calculateTotals (items : List InvoiceItem) (igstRate sgstRate cgstRate : ℚ) :
    InvoiceTotals :=
  let subtotal := items.foldl (fun sum item => sum + item.amount) 0
  let igstAmount := (subtotal * igstRate) / 100
  let sgstAmount := (subtotal * sgstRate) / 100
  let cgstAmount := (subtotal * cgstRate) / 100
  let totalTax := igstAmount + sgstAmount + cgstAmount
  let total := subtotal + totalTax
  { subtotal := subtotal, igstAmount := igstAmount, sgstAmount := sgstAmount,
    cgstAmount := cgstAmount, totalTax := totalTax, total := total }

/-- The fields of `InvoiceItem` (`keyof InvoiceItem` in the source). -/
inductive ItemField
  | id | description | hsnSacCode | quantity | rate | amount
deriving DecidableEq, Repr

/-- A value assigned to a field (the source passes `value: any`; the calls
the source makes pass a string for the string fields and a number for
quantity, rate and amount). -/
inductive FieldValue
  | str (s : String)
  | num (q : ℚ)
deriving DecidableEq, Repr

/-- The spread-update `{ ...item, [field]: value }` of the source.  An
assignment whose value type does not match the field (never performed by
the source's call sites) is modelled as leaving the item unchanged. -/
def setField (item : InvoiceItem) : ItemField → FieldValue → InvoiceItem
  | .id, .str s => { item with id := s }
  | .description, .str s => { item with description := s }
  | .hsnSacCode, .str s => { item with hsnSacCode := s }
  | .quantity, .num q => { item with quantity := q }
  | .rate, .num q => { item with rate := q }
  | .amount, .num q => { item with amount := q }
  | _, _ => item

/-- The function `addItem` from CreateInvoice.tsx (lines 78-88): appends a
fresh item with quantity 1, rate 0, amount 0.  The random id generated by
the source is a parameter. -/
def addItem (items : List InvoiceItem) (rid : String) : List InvoiceItem :=
  items ++ [{ id := rid, description := "", hsnSacCode := "", quantity := 1,
              rate := 0, amount := 0 }]

/-- The function `updateItem` from CreateInvoice.tsx (lines 90-101): maps
over the list, replaces `field` with `value` in the item with the matching
id, and when the field is quantity or rate recomputes
amount = quantity × rate. -/
def updateItem (items : List InvoiceItem) (uid : String) (field : ItemField)
    (value : FieldValue) : List InvoiceItem :=
  items.map fun item =>
    if item.id = uid then
      let updatedItem := setField item field value
      if field = .quantity ∨ field = .rate then
        { updatedItem with amount := updatedItem.quantity * updatedItem.rate }
      else
        updatedItem
    else item

/-- The function `removeItem` from CreateInvoice.tsx (lines 103-105). -/
def removeItem (items : List InvoiceItem) (uid : String) : List InvoiceItem :=
  items.filter fun item => item.id ≠ uid

/-- One user-interface operation on the item list. -/
inductive Op
  | add (rid : String)
  | remove (uid : String)
  | update (uid : String) (field : ItemField) (value : FieldValue)
deriving DecidableEq, Repr

/-- Apply one operation to the item list. -/
def applyOp (items : List InvoiceItem) : Op → List InvoiceItem
  | .add rid => addItem items rid
  | .remove uid => removeItem items uid
  | .update uid field value => updateItem items uid field value

/-- Run a sequence of operations starting from the empty list (the
component's initial state `useState<InvoiceItem[]>([])`). -/
def runOps (ops : List Op) : List InvoiceItem :=
  ops.foldl applyOp []

/-- The derived-amount invariant: amount = quantity × rate. -/
def amountInv (item : InvoiceItem) : Prop :=
  item.amount = item.quantity * item.rate

instance (item : InvoiceItem) : Decidable (amountInv item) := by
  unfold amountInv; infer_instance

/-- An operation is one the rendered form actually performs: `updateItem`
is only ever called for the description, hsnSacCode, quantity and rate
inputs — never for the read-only amount field. -/
def Op.uiOk : Op → Prop
  | .update _ .amount _ => False
  | _ => True

instance : DecidablePred Op.uiOk := by
  intro op
  unfold Op.uiOk
  match op with
  | .add _ => infer_instance
  | .remove _ => infer_instance
  | .update _ f _ => match f with
    | .amount => infer_instance
    | .id | .description | .hsnSacCode | .quantity | .rate => infer_instance

/-- The two-operation sequence that defeats the claim as frozen: add an
item, then call `updateItem` on its amount field. -/
def badOps : List Op :=
  [.add "a", .update "a" .amount (.num 5)]

/-- A list built fresh with the new quantity in place: every item's amount
is quantity × rate, with the targeted item's quantity replaced by the new
value (what the component state would hold if the items had been entered
with the new quantity from the start). -/
def freshWithQuantity (items : List InvoiceItem) (uid : String) (q : ℚ) :
    List InvoiceItem :=
  items.map fun i =>
    let qty := if i.id = uid then q else i.quantity
    { i with quantity := qty, amount := qty * i.rate }

/-- Modelled from the spec: the single-rate tax configuration mode
("either a single `gstRate` (0-100) or a triple"); no calculator for the
legacy `gst_rate`/`gst_amount` columns exists under src/, so this follows
the spec's formula: gstAmount = subtotal × gstRate / 100,
total = subtotal + gstAmount.  The subtotal is computed exactly as the
source `calculateTotals` computes it. -/
def calculateTotalsSingleRate (items : List InvoiceItem) (gstRate : ℚ) :
    ℚ × ℚ × ℚ :=
  let subtotal := items.foldl (fun sum item => sum + item.amount) 0
  let gstAmount := (subtotal * gstRate) / 100
  (subtotal, gstAmount, subtotal + gstAmount)

/-- The two items of the spec's worked example, as the UI constructs them
(amount = quantity × rate). -/
def exampleItems : List InvoiceItem :=
  [{ id := "a", description := "", hsnSacCode := "", quantity := 2,
     rate := 100, amount := 200 },
   { id := "b", description := "", hsnSacCode := "", quantity := 1,
     rate := 50, amount := 50 }]

/-- A row of the `invoices` table, reduced to the columns the numbering
and uniqueness logic consult together with the persisted computed
snapshot. -/
structure InvoiceRecord where
  rid : String
  user_id : String
  invoice_number : String
  subtotal : ℚ
  igst_amount : ℚ
  sgst_amount : ℚ
  cgst_amount : ℚ
  total_amount : ℚ
  items : List InvoiceItem
deriving DecidableEq, Repr

/-- The SQL pattern match `invoice_number ~ '^[0-9]+$'`: one or more
digits and nothing else. -/
def isPureNumeric (s : String) : Bool :=
  !s.isEmpty && s.toList.all Char.isDigit

/-- The SQL expression `REGEXP_REPLACE(invoice_number, '[^0-9]', '', 'g')`:
delete every non-digit character. -/
def stripNonDigits (s : String) : String :=
  String.mk (s.toList.filter Char.isDigit)

/-- The SQL cast `CAST(... AS INTEGER)` on a digit string: the base-10
value (48 is the code point of the digit zero). -/
def digitsToNat (s : String) : ℕ :=
  s.toList.foldl (fun n c => n * 10 + (c.toNat - 48)) 0

/-- The function `get_next_invoice_number(user_uuid UUID)` from the
earlier migration: over the user's rows whose invoice_number matches
'^[0-9]+$', take COALESCE(MAX(CAST(REGEXP_REPLACE(invoice_number,
'[^0-9]', '', 'g') AS INTEGER)), 0), add one and return it as TEXT. -/
def get_next_invoice_number (user_uuid : String)
    (invoices : List InvoiceRecord) : String :=
  let matching := invoices.filter fun r =>
    decide (r.user_id = user_uuid) && isPureNumeric r.invoice_number
  let max_number :=
    (matching.map fun r => digitsToNat (stripNonDigits r.invoice_number)).foldl
      Nat.max 0
  toString (max_number + 1)

/-- The replacement `public.get_next_invoice_number()` from migration
20260128153059: the same body, but the rows are filtered with
`user_id = auth.uid()`; `auth.uid()` may be null, and an SQL comparison
with null is never true. -/
def get_next_invoice_number_v2 (authUid : Option String)
    (invoices : List InvoiceRecord) : String :=
  let matching := invoices.filter fun r =>
    decide (some r.user_id = authUid) && isPureNumeric r.invoice_number
  let max_number :=
    (matching.map fun r => digitsToNat (stripNonDigits r.invoice_number)).foldl
      Nat.max 0
  toString (max_number + 1)

/-- A four-row table for one user holding the spec's example numbers
"3", "7", "abc", "10". -/
def exampleTable : List InvoiceRecord :=
  [{ rid := "r1", user_id := "u", invoice_number := "3", subtotal := 0,
     igst_amount := 0, sgst_amount := 0, cgst_amount := 0, total_amount := 0,
     items := [] },
   { rid := "r2", user_id := "u", invoice_number := "7", subtotal := 0,
     igst_amount := 0, sgst_amount := 0, cgst_amount := 0, total_amount := 0,
     items := [] },
   { rid := "r3", user_id := "u", invoice_number := "abc", subtotal := 0,
     igst_amount := 0, sgst_amount := 0, cgst_amount := 0, total_amount := 0,
     items := [] },
   { rid := "r4", user_id := "u", invoice_number := "10", subtotal := 0,
     igst_amount := 0, sgst_amount := 0, cgst_amount := 0, total_amount := 0,
     items := [] }]

/-- The save error surfaced by the persistence layer. -/
inductive SaveError
  | uniqueViolation
deriving DecidableEq, Repr

/-- Modelled from the spec: insertion into the `invoices` table, whose
schema declares `UNIQUE(user_id, invoice_number)` (the database engine
enforcing the constraint is not part of the repository sources).  An
insert whose (user_id, invoice_number) pair is already stored fails with a
uniqueness violation and leaves the table unchanged; otherwise the row is
appended. -/
def insertInvoice (store : List InvoiceRecord) (rec : InvoiceRecord) :
    Except SaveError (List InvoiceRecord) :=
  if store.any fun r =>
      decide (r.user_id = rec.user_id) &&
      decide (r.invoice_number = rec.invoice_number) then
    .error .uniqueViolation
  else
    .ok (store ++ [rec])

/-- Does the table hold two distinct rows with the same
(user_id, invoice_number) key? -/
def hasDuplicateKey : List InvoiceRecord → Bool
  | [] => false
  | r :: rs =>
      (rs.any fun s =>
        decide (s.user_id = r.user_id) &&
        decide (s.invoice_number = r.invoice_number)) ||
      hasDuplicateKey rs

/-- What onSubmit reports back to the user. -/
inductive SubmitResult
  | success
  | emptyItemsError
  | saveFailure
  | noUser
deriving DecidableEq, Repr

/-- The submit handler `onSubmit` from CreateInvoice.tsx (lines 153-197):
return silently when no user is signed in; report "Please add at least one
item" when the item list is empty; otherwise compute the totals snapshot
and insert the record, reporting "Failed to create invoice" when the
insert errors. -/
def onSubmitCreate (user : Option String) (rid invoiceNumber : String)
    (items : List InvoiceItem) (igstRate sgstRate cgstRate : ℚ)
    (store : List InvoiceRecord) : SubmitResult × List InvoiceRecord :=
  match user with
  | none => (.noUser, store)
  | some uid =>
    if items.length = 0 then
      (.emptyItemsError, store)
    else
      let t := calculateTotals items igstRate sgstRate cgstRate
      match insertInvoice store
          { rid := rid, user_id := uid, invoice_number := invoiceNumber,
            subtotal := t.subtotal, igst_amount := t.igstAmount,
            sgst_amount := t.sgstAmount, cgst_amount := t.cgstAmount,
            total_amount := t.total, items := items } with
      | .error _ => (.saveFailure, store)
      | .ok updated => (.success, updated)

/-- The submit handler `onSubmit` from EditInvoice.tsx (lines 165-209):
return silently when no user or no route id; report the empty-items error
when the item list is empty; otherwise issue the UPDATE keyed on
(id, user_id).  The update fails as a save failure when it would leave the
table with a duplicated (user_id, invoice_number) key, which the schema's
UNIQUE constraint rejects (modelled from the spec, as for insertion). -/
def onSubmitEdit (user : Option String) (rowId : Option String)
    (invoiceNumber : String) (items : List InvoiceItem)
    (igstRate sgstRate cgstRate : ℚ) (store : List InvoiceRecord) :
    SubmitResult × List InvoiceRecord :=
  match user, rowId with
  | some uid, some rid =>
    if items.length = 0 then
      (.emptyItemsError, store)
    else
      let t := calculateTotals items igstRate sgstRate cgstRate
      let updated := store.map fun r =>
        if decide (r.rid = rid) && decide (r.user_id = uid) then
          { r with
            invoice_number := invoiceNumber, subtotal := t.subtotal,
            igst_amount := t.igstAmount, sgst_amount := t.sgstAmount,
            cgst_amount := t.cgstAmount, total_amount := t.total,
            items := items }
        else r
      if hasDuplicateKey updated then
        (.saveFailure, store)
      else
        (.success, updated)
  | _, _ => (.noUser, store)

/-- The response of the `supabase.rpc('get_next_invoice_number', ...)`
call: a possibly-null data string and a possibly-present error. -/
structure RpcResponse where
  data : Option String
  error : Option String
deriving DecidableEq, Repr

/-- The client helper `getNextInvoiceNumber` from CreateInvoice.tsx
(lines 120-136): "1" when no user is signed in; "1" when the rpc returns
an error (the throw is caught); otherwise `data || "1"`, where JavaScript
treats both null and the empty string as falsy. -/
def getNextInvoiceNumber (user : Option String)
    (rpc : String → RpcResponse) : String :=
  match user with
  | none => "1"
  | some uid =>
    let response := rpc uid
    match response.error with
    | some _ => "1"
    | none =>
      match response.data with
      | none => "1"
      | some s => if s = "" then "1" else s

end Invoice

namespace Invoice

/-- The running left fold used for the subtotal computes the sum of the
`amount` fields. -/
theorem foldl_amount_eq_sum (items : List InvoiceItem) (a : ℚ) :
    items.foldl (fun sum item => sum + item.amount) a
      = a + (items.map (·.amount)).sum := by
  induction items generalizing a with
  | nil => simp
  | cons hd tl ih =>
      simp only [List.foldl_cons, List.map_cons, List.sum_cons]
      rw [ih]
      ring

end Invoice

/-- C1: for every list of line items and every triple of tax rates, the
totals calculator returns subtotal = Σ amount over the items, each tax
amount = subtotal × rate / 100, totalTax = the sum of the three tax
amounts, and total = subtotal + totalTax. -/
theorem Invoice.calculateTotals_spec (items : List InvoiceItem)
    (igstRate sgstRate cgstRate : ℚ) :
    let t := calculateTotals items igstRate sgstRate cgstRate
    t.subtotal = (items.map (·.amount)).sum ∧
    t.igstAmount = t.subtotal * igstRate / 100 ∧
    t.sgstAmount = t.subtotal * sgstRate / 100 ∧
    t.cgstAmount = t.subtotal * cgstRate / 100 ∧
    t.totalTax = t.igstAmount + t.sgstAmount + t.cgstAmount ∧
    t.total = t.subtotal + t.totalTax := by
  refine ⟨?_, rfl, rfl, rfl, rfl, rfl⟩
  simp [calculateTotals, foldl_amount_eq_sum]

/-- C6: for the empty item list and every tax configuration, the totals
calculator returns subtotal = 0, every tax amount = 0, totalTax = 0 and
total = 0. -/
theorem Invoice.calculateTotals_empty (igstRate sgstRate cgstRate : ℚ) :
    calculateTotals [] igstRate sgstRate cgstRate
      = { subtotal := 0, igstAmount := 0, sgstAmount := 0, cgstAmount := 0,
          totalTax := 0, total := 0 } := by
  simp [calculateTotals]

/-- C7: on items [{qty:2, rate:100}, {qty:1, rate:50}] with single rate
gstRate = 18 the calculator yields subtotal 250, gstAmount 45 and
total 295; the source triple calculator agrees when the single rate 18 is
carried by one of its three rates. -/
theorem Invoice.calculateTotals_example :
    calculateTotalsSingleRate exampleItems 18 = (250, 45, 295) ∧
    calculateTotals exampleItems 18 0 0
      = { subtotal := 250, igstAmount := 45, sgstAmount := 0, cgstAmount := 0,
          totalTax := 45, total := 295 } := by
  constructor <;>
    · norm_num [calculateTotalsSingleRate, calculateTotals, exampleItems,
        InvoiceTotals.mk.injEq]

namespace Invoice

/-- Setting a field other than amount leaves amount unchanged, and setting
a field other than quantity, rate or amount leaves all three of quantity,
rate and amount unchanged. -/
theorem setField_preserves (item : InvoiceItem) (f : ItemField) (v : FieldValue)
    (hq : f ≠ .quantity) (hr : f ≠ .rate) (ha : f ≠ .amount) :
    (setField item f v).quantity = item.quantity ∧
    (setField item f v).rate = item.rate ∧
    (setField item f v).amount = item.amount := by
  cases f <;> cases v <;> simp_all [setField]

/-- A ui-performable operation preserves the amount invariant on every
item of the list. -/
theorem applyOp_amountInv (items : List InvoiceItem) (op : Op)
    (hok : op.uiOk) (h : ∀ i ∈ items, amountInv i) :
    ∀ i ∈ applyOp items op, amountInv i := by
  cases op with
  | add rid =>
      intro i hi
      simp only [applyOp, addItem, List.mem_append, List.mem_singleton] at hi
      rcases hi with hi | rfl
      · exact h i hi
      · simp [amountInv]
  | remove uid =>
      intro i hi
      simp only [applyOp, removeItem, List.mem_filter] at hi
      exact h i hi.1
  | update uid f v =>
      intro i hi
      simp only [applyOp, updateItem, List.mem_map] at hi
      obtain ⟨j, hj, rfl⟩ := hi
      by_cases hid : j.id = uid
      · simp only [hid, if_true]
        by_cases hqr : f = ItemField.quantity ∨ f = ItemField.rate
        · simp only [hqr, if_true]
          simp [amountInv]
        · push_neg at hqr
          have ha : f ≠ ItemField.amount := by
            intro hf; subst hf; exact hok
          obtain ⟨h1, h2, h3⟩ := setField_preserves j f v hqr.1 hqr.2 ha
          rw [if_neg (not_or.mpr ⟨hqr.1, hqr.2⟩)]
          unfold amountInv
          rw [h1, h2, h3]
          exact h j hj
      · simpa [hid] using h j hj

/-- Running ui-performable operations from a list satisfying the invariant
keeps the invariant. -/
theorem foldl_applyOp_amountInv (ops : List Op) (start : List InvoiceItem)
    (hok : ∀ op ∈ ops, op.uiOk) (h : ∀ i ∈ start, amountInv i) :
    ∀ i ∈ ops.foldl applyOp start, amountInv i := by
  induction ops generalizing start with
  | nil => simpa using h
  | cons hd tl ih =>
      simp only [List.foldl_cons]
      exact ih (applyOp start hd)
        (fun op hop => hok op (List.mem_cons_of_mem hd hop))
        (applyOp_amountInv start hd (hok hd (List.mem_cons_self hd tl)) h)

end Invoice

/-- C3 counterexample: it is not true that every list reachable from the
empty list by addItem, removeItem and updateItem operations satisfies
amount = quantity × rate for each item: `updateItem` called on the amount
field sets amount without recomputation. -/
theorem Invoice.reachable_amountInv_fails :
    ¬ (∀ ops : List Op, ∀ i ∈ runOps ops, amountInv i) := by
  intro h
  have hbad := h badOps
    { id := "a", description := "", hsnSacCode := "", quantity := 1,
      rate := 0, amount := 5 }
    (by simp [runOps, badOps, applyOp, addItem, updateItem, setField])
  simp only [amountInv] at hbad
  norm_num at hbad

/-- C3 (amended): for every item list reachable from the empty list by any
sequence of addItem, removeItem and updateItem operations in which
updateItem is never applied to the amount field (the only updates the
rendered form performs), every item satisfies amount = quantity × rate. -/
theorem Invoice.reachable_amountInv (ops : List Op)
    (hok : ∀ op ∈ ops, op.uiOk) :
    ∀ i ∈ runOps ops, amountInv i :=
  foldl_applyOp_amountInv ops [] hok (by simp)

/-- C3 witness: the amended theorem applied to the concrete operation
sequence add "a", add "b", remove "b", whose resulting single item
satisfies the invariant. -/
theorem Invoice.reachable_amountInv_witness :
    amountInv { id := "a", description := "", hsnSacCode := "",
                quantity := 1, rate := 0, amount := 0 } :=
  reachable_amountInv [Op.add "a", Op.add "b", Op.remove "b"] (by decide)
    { id := "a", description := "", hsnSacCode := "", quantity := 1,
      rate := 0, amount := 0 }
    (by simp [runOps, applyOp, addItem, removeItem])

namespace Invoice

/-- On a list satisfying the amount invariant, `updateItem` on the
quantity field produces exactly the freshly built list. -/
theorem updateItem_quantity_eq_fresh (items : List InvoiceItem)
    (uid : String) (q : ℚ) (h : ∀ i ∈ items, amountInv i) :
    updateItem items uid .quantity (.num q) = freshWithQuantity items uid q := by
  unfold updateItem freshWithQuantity
  apply List.map_congr_left
  intro i hi
  have hinv := h i hi
  by_cases hid : i.id = uid
  · simp [hid, setField]
  · unfold amountInv at hinv
    cases i
    simp_all

end Invoice

/-- C4: for every item list satisfying the amount invariant, every item id
and every new quantity, applying updateItem to change that item's quantity
and then computing totals yields the same InvoiceTotals as computing
totals on a list built fresh with the new quantity in place. -/
theorem Invoice.updateItem_quantity_totals (items : List InvoiceItem)
    (uid : String) (q igstRate sgstRate cgstRate : ℚ)
    (h : ∀ i ∈ items, amountInv i) :
    calculateTotals (updateItem items uid .quantity (.num q))
        igstRate sgstRate cgstRate
      = calculateTotals (freshWithQuantity items uid q)
        igstRate sgstRate cgstRate := by
  rw [updateItem_quantity_eq_fresh items uid q h]

/-- C4 witness: the theorem applied to the spec's two example items with
the first item's quantity changed to 5. -/
theorem Invoice.updateItem_quantity_totals_witness :
    calculateTotals (updateItem exampleItems "a" .quantity (.num 5)) 18 9 9
      = calculateTotals (freshWithQuantity exampleItems "a" 5) 18 9 9 :=
  updateItem_quantity_totals exampleItems "a" 5 18 9 9 (by
    intro i hi
    simp only [exampleItems, List.mem_cons, List.not_mem_nil, or_false] at hi
    rcases hi with rfl | rfl <;> · unfold amountInv; norm_num)

namespace Invoice

/-- Stripping non-digits from a purely numeric string leaves it
unchanged. -/
theorem stripNonDigits_of_pure (s : String) (h : isPureNumeric s = true) :
    stripNonDigits s = s := by
  unfold isPureNumeric at h
  unfold stripNonDigits
  rw [List.filter_eq_self.mpr]
  · cases s; rfl
  · intro c hc
    exact (List.all_eq_true.mp (Bool.and_elim_right h)) c hc

end Invoice

/-- C2: the next-invoice-number operation filters the user's numbers to
the purely numeric ones, parses each as an integer, takes the maximum
(0 if none match) and returns max + 1 as a string; on the numbers
["3","7","abc","10"] it returns "11", and on an empty table "1". -/
theorem Invoice.get_next_invoice_number_spec :
    (∀ (u : String) (invoices : List InvoiceRecord),
      get_next_invoice_number u invoices
        = toString
            ((((invoices.filter fun r =>
                  decide (r.user_id = u) && isPureNumeric r.invoice_number).map
                fun r => digitsToNat r.invoice_number).foldl Nat.max 0) + 1)) ∧
    get_next_invoice_number "u" exampleTable = "11" ∧
    get_next_invoice_number "u" [] = "1" := by
  refine ⟨?_, by decide, by decide⟩
  intro u invoices
  have hmap :
      ((invoices.filter fun r =>
          decide (r.user_id = u) && isPureNumeric r.invoice_number).map
        fun r => digitsToNat (stripNonDigits r.invoice_number))
      = ((invoices.filter fun r =>
            decide (r.user_id = u) && isPureNumeric r.invoice_number).map
          fun r => digitsToNat r.invoice_number) := by
    apply List.map_congr_left
    intro r hr
    rw [stripNonDigits_of_pure]
    exact Bool.and_elim_right (List.mem_filter.mp hr).2
  simp only [get_next_invoice_number, hmap]

/-- C8: the original `get_next_invoice_number(user_uuid)` and its
`auth.uid()`-based replacement compute the same suggestion over the same
user's stored rows. -/
theorem Invoice.get_next_invoice_number_equiv (u : String)
    (invoices : List InvoiceRecord) :
    get_next_invoice_number u invoices
      = get_next_invoice_number_v2 (some u) invoices := by
  have hfil :
      (invoices.filter fun r =>
          decide (r.user_id = u) && isPureNumeric r.invoice_number)
      = (invoices.filter fun r =>
          decide (some r.user_id = some u) && isPureNumeric r.invoice_number) := by
    apply List.filter_congr
    intro r _
    simp
  simp only [get_next_invoice_number, get_next_invoice_number_v2, hfil]

/-- C5: persisting a second invoice with the same (user, invoice_number)
pair as an already-stored invoice fails with the uniqueness conflict,
surfaced as a save failure, and the stored invoice set is unchanged. -/
theorem Invoice.duplicate_insert_fails (uid rid num : String)
    (items : List InvoiceItem) (igstRate sgstRate cgstRate : ℚ)
    (store : List InvoiceRecord) (hitems : items ≠ [])
    (hdup : ∃ r ∈ store, r.user_id = uid ∧ r.invoice_number = num) :
    onSubmitCreate (some uid) rid num items igstRate sgstRate cgstRate store
      = (.saveFailure, store) := by
  obtain ⟨r, hr, hru, hrn⟩ := hdup
  have hlen : ¬ items.length = 0 := by simpa using hitems
  have hany : (store.any fun s =>
      decide (s.user_id = uid) && decide (s.invoice_number = num)) = true :=
    List.any_eq_true.mpr ⟨r, hr, by simp [hru, hrn]⟩
  simp only [onSubmitCreate, insertInvoice, if_neg hlen]
  simp [hany]

/-- C5 witness: inserting invoice number "5" for user "u" over a one-row
store already holding ("u", "5"). -/
theorem Invoice.duplicate_insert_fails_witness :
    onSubmitCreate (some "u") "r9" "5"
      [{ id := "a", description := "", hsnSacCode := "", quantity := 1,
         rate := 2, amount := 2 }] 0 0 0
      [{ rid := "r1", user_id := "u", invoice_number := "5", subtotal := 2,
         igst_amount := 0, sgst_amount := 0, cgst_amount := 0,
         total_amount := 2, items := [] }]
      = (.saveFailure,
         [{ rid := "r1", user_id := "u", invoice_number := "5", subtotal := 2,
            igst_amount := 0, sgst_amount := 0, cgst_amount := 0,
            total_amount := 2, items := [] }]) :=
  duplicate_insert_fails "u" "r9" "5" _ 0 0 0 _ (by simp)
    ⟨_, List.mem_singleton_self _, rfl, rfl⟩

/-- C9: submitting with an empty item list, on the create page or the
edit page, writes nothing to the invoice store: with a signed-in user the
empty-items error is reported, with no user the submit returns silently;
in every case the stored invoice set is unchanged. -/
theorem Invoice.empty_items_no_write (uid rid num : String)
    (igstRate sgstRate cgstRate : ℚ) (store : List InvoiceRecord) :
    onSubmitCreate (some uid) rid num [] igstRate sgstRate cgstRate store
        = (.emptyItemsError, store) ∧
    onSubmitEdit (some uid) (some rid) num [] igstRate sgstRate cgstRate store
        = (.emptyItemsError, store) ∧
    onSubmitCreate none rid num [] igstRate sgstRate cgstRate store
        = (.noUser, store) ∧
    onSubmitEdit none (some rid) num [] igstRate sgstRate cgstRate store
        = (.noUser, store) ∧
    onSubmitEdit (some uid) none num [] igstRate sgstRate cgstRate store
        = (.noUser, store) := by
  refine ⟨rfl, rfl, rfl, rfl, rfl⟩

/-- C10: the client-side next-invoice-number request returns "1" in every
failure case: no signed-in user, an rpc error, a null result, or an empty
result. -/
theorem Invoice.getNextInvoiceNumber_failures (uid : String)
    (rpc : String → RpcResponse) :
    getNextInvoiceNumber none rpc = "1" ∧
    (∀ e, (rpc uid).error = some e →
      getNextInvoiceNumber (some uid) rpc = "1") ∧
    ((rpc uid).error = none → (rpc uid).data = none →
      getNextInvoiceNumber (some uid) rpc = "1") ∧
    ((rpc uid).error = none → (rpc uid).data = some "" →
      getNextInvoiceNumber (some uid) rpc = "1") := by
  refine ⟨rfl, ?_, ?_, ?_⟩
  · intro e he
    simp [getNextInvoiceNumber, he]
  · intro he hd
    simp [getNextInvoiceNumber, he, hd]
  · intro he hd
    simp [getNextInvoiceNumber, he, hd]

/-- C10 witness: the theorem applied at a concrete rpc stub returning an
error, and at stubs returning a null and an empty data string. -/
theorem Invoice.getNextInvoiceNumber_failures_witness :
    getNextInvoiceNumber (some "u")
        (fun _ => { data := none, error := some "boom" }) = "1" ∧
    getNextInvoiceNumber (some "u")
        (fun _ => { data := none, error := none }) = "1" ∧
    getNextInvoiceNumber (some "u")
        (fun _ => { data := some "", error := none }) = "1" :=
  ⟨(getNextInvoiceNumber_failures "u"
      (fun _ => { data := none, error := some "boom" })).2.1 "boom" rfl,
   (getNextInvoiceNumber_failures "u"
      (fun _ => { data := none, error := none })).2.2.1 rfl rfl,
   (getNextInvoiceNumber_failures "u"
      (fun _ => { data := some "", error := none })).2.2.2 rfl rfl⟩
